import Mathlib

/-!
Verification of the SVR3 (secure value recovery) client protocol core of
libsignal-net against its natural-language specification.

The development shallowly embeds three source files:

* rust/net/examples/svr3_prop_test.rs — the Conformance Oracle
  (reference state machine InMemoryStorage with operations
  SetUid / Backup / Restore / RestoreWithBadPassword), and the
  state-machine test harness that asserts the live protocol agrees with it;
* rust/net/src/svr.rs — SvrConnection::connect, its error type and the
  From (AttestedConnectionError to Error) conversion;
* rust/net/src/enclave.rs — the EnclaveKind url_path mapping for
  Cdsi / Sgx / Nitro.

Machine integers: the only arithmetic the oracle performs on its u32
attempt counter is saturating_sub by 1, which coincides with Nat
subtraction, so counters are embedded as Nat (no overflow is reachable).
Rust functions that can terminate the process (Option::unwrap on a missing
uid, str::from_utf8(...).expect) are embedded as Option-returning
functions, none standing for the run that dies.
-/

/-- A byte, as in Rust u8. -/
abbrev Byte := Fin 256

/-- User id: Rust type alias Uid = [u8; 16] (svr3_prop_test.rs line 58). -/
def Uid := { l : List Byte // l.length = 16 }

instance : DecidableEq Uid := fun a b =>
  decidable_of_iff (a.val = b.val) Subtype.ext_iff.symm

/-- Secret payload: Rust type alias Secret = [u8; 32] (svr3_prop_test.rs line 59). -/
def Secret := { l : List Byte // l.length = 32 }

instance : DecidableEq Secret := fun a b =>
  decidable_of_iff (a.val = b.val) Subtype.ext_iff.symm

/-- A concrete all-equal-bytes user id, for concrete runs. -/
def mkUid (b : Byte) : Uid := ⟨List.replicate 16 b, List.length_replicate 16 b⟩

/-- A concrete all-equal-bytes secret, for concrete runs. -/
def mkSecret (b : Byte) : Secret := ⟨List.replicate 32 b, List.length_replicate 32 b⟩

/-- Per-user server-side record: struct Svr3Cell { secret, tries_left }
(svr3_prop_test.rs lines 61-65); tries_left is u32, embedded as Nat. -/
structure Svr3Cell where
  secret : Secret
  tries_left : Nat
deriving DecidableEq

/-- The four transitions of the reference state machine
(svr3_prop_test.rs lines 73-79). -/
inductive Transition where
  | SetUid (uid : Uid)
  | Backup (secret : Secret) (tries : Nat)
  | Restore
  | RestoreWithBadPassword
deriving DecidableEq

/-- Outcome recorded by the oracle after each transition
(svr3_prop_test.rs lines 98-105). -/
inductive TransitionOutcome where
  | Nothing
  | NotFound
  | Restored (secret : Secret)
  | MaxTriesReached
  | BadCommitment
deriving DecidableEq

/-- The Conformance Oracle state (svr3_prop_test.rs lines 81-86):
current uid, the per-uid record map (HashMap embedded as a function to
Option), and the outcome of the last transition. -/
structure InMemoryStorage where
  uid : Option Uid
  data : Uid → Option Svr3Cell
  last_transition_outcome : TransitionOutcome

/-- Default oracle state (svr3_prop_test.rs lines 88-96). -/
def InMemoryStorage.default : InMemoryStorage :=
  { uid := none, data := fun _ => none, last_transition_outcome := .Nothing }

/-- The restore step of the oracle, shared by Transition::Restore and
Transition::RestoreWithBadPassword (svr3_prop_test.rs lines 172-199).
Guard order mirrors the source match arms: record absent, then
tries_left == 0 (delete, MaxTriesReached), then bad commitment
(decrement, BadCommitment), then good restore (decrement, Restored).
Returns none when state.uid is none (Option::unwrap would die). -/
def InMemoryStorage.restoreStep (state : InMemoryStorage)
    (expect_bad_commitment : Bool) : Option InMemoryStorage := do
  let uid ← state.uid
  match state.data uid with
  | none =>
      pure { state with last_transition_outcome := .NotFound }
  | some cell =>
      if cell.tries_left = 0 then
        pure { state with
                 data := fun u => if u = uid then none else state.data u,
                 last_transition_outcome := .MaxTriesReached }
      else if expect_bad_commitment then
        pure { state with
                 data := fun u =>
                   if u = uid then some ⟨cell.secret, cell.tries_left - 1⟩
                   else state.data u,
                 last_transition_outcome := .BadCommitment }
      else
        pure { state with
                 data := fun u =>
                   if u = uid then some ⟨cell.secret, cell.tries_left - 1⟩
                   else state.data u,
                 last_transition_outcome := .Restored cell.secret }

/-- The oracle transition function, InMemoryStorage::apply
(svr3_prop_test.rs lines 157-202). HashMap::insert is embedded as a
pointwise function update; the unwrap of state.uid on Backup/Restore is
embedded by returning none. -/
def InMemoryStorage.apply (state : InMemoryStorage) :
    Transition → Option InMemoryStorage
  | .SetUid uid =>
      some { state with uid := some uid, last_transition_outcome := .Nothing }
  | .Backup secret tries => do
      let uid ← state.uid
      pure { state with
               data := fun u =>
                 if u = uid then some ⟨secret, tries⟩ else state.data u,
               last_transition_outcome := .Nothing }
  | .Restore => state.restoreStep false
  | .RestoreWithBadPassword => state.restoreStep true

/-- Run the oracle over a sequence of transitions. -/
def InMemoryStorage.run (state : InMemoryStorage) :
    List Transition → Option InMemoryStorage
  | [] => some state
  | t :: ts => (state.apply t).bind (fun s => s.run ts)

/-- Whether a transition is one of the two restore kinds. -/
def Transition.isRestore : Transition → Bool
  | .Restore => true
  | .RestoreWithBadPassword => true
  | _ => false

/-- An oracle state with a uid selected and no records: the state reached
from InMemoryStorage.default by SetUid. Used to instantiate theorems at
concrete inputs. -/
def initWithUid (u : Uid) : InMemoryStorage :=
  { uid := some u, data := fun _ => none, last_transition_outcome := .Nothing }

/-- An oracle state with a uid selected and a single record at that uid.
Used to instantiate theorems at concrete inputs. -/
def withCell (u : Uid) (c : Svr3Cell) : InMemoryStorage :=
  { uid := some u,
    data := fun v => if v = u then some c else none,
    last_transition_outcome := .Nothing }

/-- Modelled from the spec: the client-visible outcome of one live protocol
operation. The live protocol implementation (libsignal_net::svr3, the
Svr3Env::backup/restore entry points and the real replicas) is not under
src/, only its test caller is; spec section 7 names the error taxonomy
(Data-missing; Restore-failed, i.e. Error::DataMissing and
Error::RestoreFailed in the caller at svr3_prop_test.rs lines 255 and 269)
and a Success carries the restored secret bytes. -/
inductive LiveOutcome where
  | Nothing
  | Success (secret : Secret)
  | DataMissing
  | RestoreFailed
deriving DecidableEq

/-- Modelled from the spec: the state of the live replicas for the purpose
of one user-id operation sequence — per spec section 4.4 the replicas
jointly hold one conceptual per-user record (secret, triesRemaining); both
replicas of the pair see the same sequence, so one record map suffices. -/
structure LiveState where
  uid : Option Uid
  records : Uid → Option Svr3Cell
  lastOutcome : LiveOutcome

/-- Initial live state: no uid selected, no records. -/
def LiveState.default : LiveState :=
  { uid := none, records := fun _ => none, lastOutcome := .Nothing }

/-- Modelled from the spec: the live protocol step, following the state
machine of spec section 4.4 verbatim, including its stated tie-break:
on backup star-to-Present(maxTries) (overwrite); on restore
Present(n greater than 1) with correct password to Present(n-1) returning
the secret, with wrong password to Present(n-1) and wrong-password error,
Present(1) under any password to Absent with data-missing, and
Absent under any password to Absent with data-missing. -/
def LiveState.applySpec (state : LiveState) : Transition → Option LiveState
  | .SetUid uid =>
      some { state with uid := some uid, lastOutcome := .Nothing }
  | .Backup secret tries => do
      let uid ← state.uid
      pure { state with
               records := fun u =>
                 if u = uid then some ⟨secret, tries⟩ else state.records u,
               lastOutcome := .Nothing }
  | t => do
      let uid ← state.uid
      let wrong := t = Transition.RestoreWithBadPassword
      match state.records uid with
      | none => pure { state with lastOutcome := .DataMissing }
      | some cell =>
          if cell.tries_left ≤ 1 then
            pure { state with
                     records := fun u =>
                       if u = uid then none else state.records u,
                     lastOutcome := .DataMissing }
          else if wrong then
            pure { state with
                     records := fun u =>
                       if u = uid then some ⟨cell.secret, cell.tries_left - 1⟩
                       else state.records u,
                     lastOutcome := .RestoreFailed }
          else
            pure { state with
                     records := fun u =>
                       if u = uid then some ⟨cell.secret, cell.tries_left - 1⟩
                       else state.records u,
                     lastOutcome := .Success cell.secret }

/-- Modelled from the spec: the live protocol step with its restore
tie-break aligned to the Conformance Oracle of the source (the only
change the counterexample to C3 forces): exhaustion is reported, and the
record deleted, on the attempt that finds triesRemaining already 0; an
attempt that finds triesRemaining at least 1 compares the commitment and
decrements. Everything else is as in LiveState.applySpec. -/
def LiveState.applyFixed (state : LiveState) : Transition → Option LiveState
  | .SetUid uid =>
      some { state with uid := some uid, lastOutcome := .Nothing }
  | .Backup secret tries => do
      let uid ← state.uid
      pure { state with
               records := fun u =>
                 if u = uid then some ⟨secret, tries⟩ else state.records u,
               lastOutcome := .Nothing }
  | t => do
      let uid ← state.uid
      let wrong := t = Transition.RestoreWithBadPassword
      match state.records uid with
      | none => pure { state with lastOutcome := .DataMissing }
      | some cell =>
          if cell.tries_left = 0 then
            pure { state with
                     records := fun u =>
                       if u = uid then none else state.records u,
                     lastOutcome := .DataMissing }
          else if wrong then
            pure { state with
                     records := fun u =>
                       if u = uid then some ⟨cell.secret, cell.tries_left - 1⟩
                       else state.records u,
                     lastOutcome := .RestoreFailed }
          else
            pure { state with
                     records := fun u =>
                       if u = uid then some ⟨cell.secret, cell.tries_left - 1⟩
                       else state.records u,
                     lastOutcome := .Success cell.secret }

/-- Run the spec-tie-break live model over a sequence of transitions. -/
def LiveState.runSpec (state : LiveState) :
    List Transition → Option LiveState
  | [] => some state
  | t :: ts => (state.applySpec t).bind (fun s => s.runSpec ts)

/-- Run the aligned-tie-break live model over a sequence of transitions. -/
def LiveState.runFixed (state : LiveState) :
    List Transition → Option LiveState
  | [] => some state
  | t :: ts => (state.applyFixed t).bind (fun s => s.runFixed ts)

/-- The outcome correspondence the test harness asserts
(svr3_prop_test.rs lines 244-291): oracle NotFound and MaxTriesReached
both correspond to the live Error::DataMissing, oracle BadCommitment to
the live Error::RestoreFailed, oracle Restored(s) to a live success with
the identical secret bytes, and Nothing to no restore outcome. -/
def outcomeMatches : TransitionOutcome → LiveOutcome → Bool
  | .Nothing, .Nothing => true
  | .NotFound, .DataMissing => true
  | .MaxTriesReached, .DataMissing => true
  | .BadCommitment, .RestoreFailed => true
  | .Restored s, .Success s2 => s = s2
  | _, _ => false

/-- Simulation relation between an oracle state and a live state:
same current uid, pointwise equal record maps, corresponding outcomes. -/
def stateRel (o : InMemoryStorage) (l : LiveState) : Prop :=
  o.uid = l.uid ∧ (∀ u, o.data u = l.records u) ∧
    outcomeMatches o.last_transition_outcome l.lastOutcome = true

/-- Lift the simulation relation to possibly-dead runs: both runs die
together (the unwrap of an unset uid), or both survive in relation. -/
def optionRel : Option InMemoryStorage → Option LiveState → Prop
  | none, none => True
  | some o, some l => stateRel o l
  | _, _ => False

/-- Attestation-layer error carrier, attest::enclave::Error. Its variants
live outside this crate (the attest crate is an external collaborator per
spec section 1); only its identity matters here, so it is an opaque
wrapper. -/
structure AttestError where
  code : Nat
deriving DecidableEq

/-- Network error carrier, crate::infra::errors::NetError. The infra
module is not under src/; svr.rs names exactly two of its variants
(NoServiceConnection, Timeout), the rest are abstracted by Other. -/
inductive NetError where
  | NoServiceConnection
  | Timeout
  | Other (code : Nat)
deriving DecidableEq

/-- Outcome of one connection attempt,
crate::infra::reconnect::ServiceState, as consumed by
SvrConnection::connect (svr.rs lines 87-92): Active carries the websocket
channel plus a second component the caller discards. -/
inductive ServiceState (W : Type) (SE : Type) where
  | Active (ws : W) (extra : SE)
  | Cooldown (remainingMillis : Nat)
  | Error (e : NetError)
  | TimedOut

/-- Error of the attested-connection layer,
crate::infra::ws::AttestedConnectionError, with the four variants svr.rs
matches on (lines 34-39); the client-connection payload is opaque. -/
inductive AttestedConnectionError where
  | ClientConnection (code : Nat)
  | Net (e : NetError)
  | Protocol
  | Sgx (e : AttestError)
deriving DecidableEq

/-- The SVR error taxonomy, svr::Error (svr.rs lines 20-28). -/
inductive SvrError where
  | Net (e : NetError)
  | Protocol
  | AttestationError (e : AttestError)
deriving DecidableEq

/-- The From (AttestedConnectionError to svr::Error) conversion
(svr.rs lines 32-41). -/
def svrErrorFrom : AttestedConnectionError → SvrError
  | .ClientConnection _ => .Protocol
  | .Net net => .Net net
  | .Protocol => .Protocol
  | .Sgx err => .AttestationError err

/-- SvrConnection (svr.rs lines 43-46): an attested connection tagged by
a flavor type; the flavor is a phantom type parameter, the payload is the
inner attested connection. -/
structure SvrConnection (Flavor : Type) (A : Type) where
  inner : A

/-- SvrConnection::connect (svr.rs lines 68-99), embedded over the outcome
of the connection-manager attempt (the awaited
service_initializer.connect()) and the attested handshake
(AttestedConnection::connect applied to the websocket, which uses the
flavor's own new_handshake): Active feeds the websocket to the attested
handshake, whose failure is converted through svrErrorFrom; Cooldown maps
to Net NoServiceConnection; Error e to Net e; TimedOut to Net Timeout. -/
def SvrConnection.connect {Flavor W SE A : Type}
    (attempt : ServiceState W SE)
    (attestedConnect : W → Except AttestedConnectionError A) :
    Except SvrError (SvrConnection Flavor A) :=
  match attempt with
  | .Active ws _ =>
      match attestedConnect ws with
      | .ok attested => .ok ⟨attested⟩
      | .error e => .error (svrErrorFrom e)
  | .Cooldown _ => .error (.Net .NoServiceConnection)
  | .Error e => .error (.Net e)
  | .TimedOut => .error (.Net .Timeout)

/-- Lowercase hex digit for a value below 16, as produced by hex::encode. -/
def hexDigitChar (n : Nat) : Char :=
  if n < 10 then Char.ofNat (48 + n) else Char.ofNat (87 + n)

/-- hex::encode: each byte becomes two lowercase hex digits. -/
def hexEncode (bytes : List Byte) : String :=
  String.mk ((bytes.map fun b =>
    [hexDigitChar (b.val / 16), hexDigitChar (b.val % 16)]).flatten)

/-- A UTF-8 continuation byte, 0x80 to 0xBF. -/
def isUtf8Cont (b : Byte) : Bool :=
  decide (128 ≤ b.val) && decide (b.val ≤ 191)

/-- Strict UTF-8 decoding as performed by Rust str::from_utf8: one to four
byte sequences, rejecting overlong encodings, surrogates and code points
above 0x10FFFF; none means from_utf8 returns Err (and the expect in
Nitro::url_path dies). -/
def utf8Decode : List Byte → Option (List Char)
  | [] => some []
  | b :: rest =>
    let bv := b.val
    if bv ≤ 127 then
      (utf8Decode rest).map (fun cs => Char.ofNat bv :: cs)
    else if 194 ≤ bv ∧ bv ≤ 223 then
      match rest with
      | b1 :: rest1 =>
        if isUtf8Cont b1 then
          (utf8Decode rest1).map (fun cs =>
            Char.ofNat ((bv - 192) * 64 + (b1.val - 128)) :: cs)
        else none
      | [] => none
    else if 224 ≤ bv ∧ bv ≤ 239 then
      match rest with
      | b1 :: b2 :: rest2 =>
        let lo1 : Nat := if bv = 224 then 160 else 128
        let hi1 : Nat := if bv = 237 then 159 else 191
        if lo1 ≤ b1.val ∧ b1.val ≤ hi1 ∧ isUtf8Cont b2 = true then
          (utf8Decode rest2).map (fun cs =>
            Char.ofNat
              ((bv - 224) * 4096 + (b1.val - 128) * 64 + (b2.val - 128)) :: cs)
        else none
      | _ => none
    else if 240 ≤ bv ∧ bv ≤ 244 then
      match rest with
      | b1 :: b2 :: b3 :: rest3 =>
        let lo1 : Nat := if bv = 240 then 144 else 128
        let hi1 : Nat := if bv = 244 then 143 else 191
        if lo1 ≤ b1.val ∧ b1.val ≤ hi1 ∧ isUtf8Cont b2 = true ∧
            isUtf8Cont b3 = true then
          (utf8Decode rest3).map (fun cs =>
            Char.ofNat
              ((bv - 240) * 262144 + (b1.val - 128) * 4096 +
                (b2.val - 128) * 64 + (b3.val - 128)) :: cs)
        else none
      | _ => none
    else none

namespace Cdsi

/-- Cdsi url_path (enclave.rs lines 33-37): hex-encode the enclave
identity into the path string. PathAndQuery::try_from belongs to the
external http crate and is not modelled; the embedding yields the string
handed to it, and none stands for a dying call (no death point exists in
this flavor's body before try_from). -/
def url_path (enclave : List Byte) : Option String :=
  some ("/v1/" ++ hexEncode enclave ++ "/discovery")

end Cdsi

namespace Sgx

/-- Sgx url_path (enclave.rs lines 39-43): hex-encode the enclave
identity; same external-try_from convention as Cdsi.url_path. -/
def url_path (enclave : List Byte) : Option String :=
  some ("/v1/" ++ hexEncode enclave)

end Sgx

namespace Nitro

/-- Nitro url_path (enclave.rs lines 45-53): interpret the enclave
identity bytes as UTF-8 via str::from_utf8(...).expect, which dies on
invalid UTF-8 (embedded as none); same external-try_from convention as
the other flavors. -/
def url_path (enclave : List Byte) : Option String :=
  (utf8Decode enclave).map (fun cs => "/v1/" ++ String.mk cs)

end Nitro

/-! ## Single-step lemmas about the oracle transition function -/

/-- Backup with the uid set overwrites the record at the current uid. -/
theorem backup_eq {s : InMemoryStorage} {u : Uid} (S : Secret) (m : Nat)
    (hu : s.uid = some u) :
    s.apply (.Backup S m) =
      some { s with
               data := fun v => if v = u then some ⟨S, m⟩ else s.data v,
               last_transition_outcome := .Nothing } := by
  simp [InMemoryStorage.apply, hu]

/-- A restore attempt on an absent record reports NotFound and changes
neither the uid nor any entry of the record map. -/
theorem restore_absent_eq {s : InMemoryStorage} {u : Uid} {t : Transition}
    (hu : s.uid = some u) (hd : s.data u = none) (ht : t.isRestore = true) :
    s.apply t = some { s with last_transition_outcome := .NotFound } := by
  cases t with
  | SetUid u2 => simp [Transition.isRestore] at ht
  | Backup S m => simp [Transition.isRestore] at ht
  | Restore => simp [InMemoryStorage.apply, InMemoryStorage.restoreStep, hu, hd]
  | RestoreWithBadPassword =>
      simp [InMemoryStorage.apply, InMemoryStorage.restoreStep, hu, hd]

/-- A restore attempt that finds the record with tries_left = 0 deletes it
and reports MaxTriesReached, whatever the password. -/
theorem restore_zero_eq {s : InMemoryStorage} {u : Uid} {cell : Svr3Cell}
    {t : Transition} (hu : s.uid = some u) (hd : s.data u = some cell)
    (ht : t.isRestore = true) (h0 : cell.tries_left = 0) :
    s.apply t =
      some { s with
               data := fun v => if v = u then none else s.data v,
               last_transition_outcome := .MaxTriesReached } := by
  cases t with
  | SetUid u2 => simp [Transition.isRestore] at ht
  | Backup S m => simp [Transition.isRestore] at ht
  | Restore =>
      simp [InMemoryStorage.apply, InMemoryStorage.restoreStep, hu, hd, h0]
  | RestoreWithBadPassword =>
      simp [InMemoryStorage.apply, InMemoryStorage.restoreStep, hu, hd, h0]

/-- A wrong-password restore attempt that finds tries_left positive
decrements the counter and reports BadCommitment. -/
theorem restore_pos_bad_eq {s : InMemoryStorage} {u : Uid} {cell : Svr3Cell}
    (hu : s.uid = some u) (hd : s.data u = some cell)
    (h0 : cell.tries_left ≠ 0) :
    s.apply .RestoreWithBadPassword =
      some { s with
               data := fun v =>
                 if v = u then some ⟨cell.secret, cell.tries_left - 1⟩
                 else s.data v,
               last_transition_outcome := .BadCommitment } := by
  simp [InMemoryStorage.apply, InMemoryStorage.restoreStep, hu, hd, h0]

/-- A correct-password restore attempt that finds tries_left positive
decrements the counter and reports Restored with the stored secret. -/
theorem restore_pos_good_eq {s : InMemoryStorage} {u : Uid} {cell : Svr3Cell}
    (hu : s.uid = some u) (hd : s.data u = some cell)
    (h0 : cell.tries_left ≠ 0) :
    s.apply .Restore =
      some { s with
               data := fun v =>
                 if v = u then some ⟨cell.secret, cell.tries_left - 1⟩
                 else s.data v,
               last_transition_outcome := .Restored cell.secret } := by
  simp [InMemoryStorage.apply, InMemoryStorage.restoreStep, hu, hd, h0]

/-- A restore attempt that finds tries_left positive decrements the
counter, keeps the stored secret, and reports either BadCommitment or
Restored of the stored secret, depending only on password correctness. -/
theorem restore_pos_eq {s : InMemoryStorage} {u : Uid} {cell : Svr3Cell}
    {t : Transition} (hu : s.uid = some u) (hd : s.data u = some cell)
    (ht : t.isRestore = true) (h0 : cell.tries_left ≠ 0) :
    ∃ out, (out = TransitionOutcome.BadCommitment ∨
            out = TransitionOutcome.Restored cell.secret) ∧
      s.apply t =
        some { s with
                 data := fun v =>
                   if v = u then some ⟨cell.secret, cell.tries_left - 1⟩
                   else s.data v,
                 last_transition_outcome := out } := by
  cases t with
  | SetUid u2 => simp [Transition.isRestore] at ht
  | Backup S m => simp [Transition.isRestore] at ht
  | Restore =>
      exact ⟨.Restored cell.secret, Or.inr rfl, restore_pos_good_eq hu hd h0⟩
  | RestoreWithBadPassword =>
      exact ⟨.BadCommitment, Or.inl rfl, restore_pos_bad_eq hu hd h0⟩

/-! ## Run-level lemmas about sequences of restore attempts -/

/-- Running restore attempts against an absent record always succeeds,
never touches the record, and (once at least one attempt happened)
reports NotFound. -/
theorem run_restores_absent {u : Uid} (rs : List Transition) :
    ∀ (s : InMemoryStorage), s.uid = some u → s.data u = none →
      (∀ t ∈ rs, t.isRestore = true) →
      ∃ s1, s.run rs = some s1 ∧ s1.uid = some u ∧ s1.data u = none ∧
        (rs = [] → s1 = s) ∧
        (rs ≠ [] → s1.last_transition_outcome = .NotFound) := by
  induction rs with
  | nil =>
      intro s hu hd _
      exact ⟨s, rfl, hu, hd, fun _ => rfl, fun h => absurd rfl h⟩
  | cons t rs ih =>
      intro s hu hd hrs
      have ht : t.isRestore = true := hrs t (by simp)
      have h1 := restore_absent_eq hu hd ht
      obtain ⟨s1, hrun, h1u, h1d, _hnil, hne⟩ :=
        ih { s with last_transition_outcome := .NotFound } hu hd
          (fun t' ht' => hrs t' (by simp [ht']))
      refine ⟨s1, ?_, h1u, h1d, by simp, fun _ => ?_⟩
      · simp [InMemoryStorage.run, h1, hrun]
      · rcases rs with _ | ⟨t2, rs2⟩
        · have hs1 : s1 = { s with last_transition_outcome := .NotFound } := by
            simpa [InMemoryStorage.run] using hrun.symm
          simp [hs1]
        · exact hne (by simp)

/-- Running k restore attempts against a record holding (S, j) always
succeeds; while attempts have not exceeded j the record holds (S, j - k)
(so the counter is non-increasing and each attempt costs exactly one try,
whatever the passwords were); the attempt after the counter hits 0
deletes the record and reports MaxTriesReached; every later attempt
reports NotFound on the now-absent record. -/
theorem run_restores_present {u : Uid} {S : Secret} (rs : List Transition) :
    ∀ (s : InMemoryStorage) (j : Nat), s.uid = some u →
      s.data u = some ⟨S, j⟩ → (∀ t ∈ rs, t.isRestore = true) →
      ∃ s1, s.run rs = some s1 ∧ s1.uid = some u ∧
        (rs.length ≤ j → s1.data u = some ⟨S, j - rs.length⟩) ∧
        (rs.length = j + 1 → s1.data u = none ∧
          s1.last_transition_outcome = .MaxTriesReached) ∧
        (j + 2 ≤ rs.length → s1.data u = none ∧
          s1.last_transition_outcome = .NotFound) := by
  induction rs with
  | nil =>
      intro s j hu hd _
      exact ⟨s, rfl, hu, fun _ => by simpa using hd,
        fun h => by simp only [List.length_nil] at h; omega,
        fun h => by simp only [List.length_nil] at h; omega⟩
  | cons t rs ih =>
      intro s j hu hd hrs
      have ht : t.isRestore = true := hrs t (by simp)
      have hrs' : ∀ t' ∈ rs, t'.isRestore = true :=
        fun t' ht' => hrs t' (by simp [ht'])
      rcases j with _ | jj
      · -- the attempt finds tries_left = 0: delete, MaxTriesReached
        have h1 := restore_zero_eq hu hd ht rfl
        obtain ⟨s1, hrun, h1u, h1d, hnil, hne⟩ :=
          run_restores_absent rs
            { s with
                data := fun v => if v = u then none else s.data v,
                last_transition_outcome := .MaxTriesReached }
            hu (by simp) hrs'
        refine ⟨s1, by simp [InMemoryStorage.run, h1, hrun], h1u,
          fun h => absurd h (by simp), fun h => ?_, fun h => ?_⟩
        · have hrs0 : rs = [] := by
            simp only [List.length_cons] at h
            exact List.length_eq_zero.mp (by omega)
          subst hrs0
          simp [hnil rfl, h1d]
        · refine ⟨h1d, hne ?_⟩
          rcases rs with _ | _
          · simp at h
          · simp
      · -- the attempt finds tries_left = jj + 1: decrement and recurse
        obtain ⟨out, _hout, h1⟩ := restore_pos_eq hu hd ht (by simp)
        obtain ⟨s1, hrun, h1u, hle, heq, hge⟩ :=
          ih { s with
                 data := fun v =>
                   if v = u then some ⟨S, jj⟩ else s.data v,
                 last_transition_outcome := out }
            jj hu (by simp) hrs'
        refine ⟨s1, by simp [InMemoryStorage.run, h1, hrun], h1u,
          fun h => ?_, fun h => ?_, fun h => ?_⟩
        · have h' : rs.length ≤ jj := by simpa using h
          have := hle h'
          simpa [Nat.succ_sub_succ] using this
        · exact heq (by simpa using h)
        · exact hge (by simp only [List.length_cons] at h; omega)

/-- Restore attempts preserve the invariant that the record at the current
uid (when present) holds the secret S, and that a Restored outcome can
only carry S. -/
theorem run_restores_secret {u : Uid} {S : Secret} (rs : List Transition) :
    ∀ (s : InMemoryStorage), s.uid = some u →
      (∀ c, s.data u = some c → c.secret = S) →
      (∀ x, s.last_transition_outcome = .Restored x → x = S) →
      (∀ t ∈ rs, t.isRestore = true) →
      ∃ s1, s.run rs = some s1 ∧ s1.uid = some u ∧
        (∀ c, s1.data u = some c → c.secret = S) ∧
        (∀ x, s1.last_transition_outcome = .Restored x → x = S) := by
  induction rs with
  | nil =>
      intro s hu hinv hout _
      exact ⟨s, rfl, hu, hinv, hout⟩
  | cons t rs ih =>
      intro s hu hinv hout hrs
      have ht : t.isRestore = true := hrs t (by simp)
      have hrs' : ∀ t' ∈ rs, t'.isRestore = true :=
        fun t' ht' => hrs t' (by simp [ht'])
      rcases hcell : s.data u with _ | cell
      · have h1 := restore_absent_eq hu hcell ht
        obtain ⟨s1, hrun, h1u, h1inv, h1out⟩ :=
          ih { s with last_transition_outcome := .NotFound } hu
            (by intro c hc; exact hinv c hc) (by simp) hrs'
        exact ⟨s1, by simp [InMemoryStorage.run, h1, hrun], h1u, h1inv, h1out⟩
      · rcases Nat.eq_zero_or_pos cell.tries_left with h0 | h0
        · have h1 := restore_zero_eq hu hcell ht h0
          obtain ⟨s1, hrun, h1u, h1inv, h1out⟩ :=
            ih { s with
                   data := fun v => if v = u then none else s.data v,
                   last_transition_outcome := .MaxTriesReached }
              hu (by simp) (by simp) hrs'
          exact ⟨s1, by simp [InMemoryStorage.run, h1, hrun], h1u, h1inv, h1out⟩
        · obtain ⟨out, hout2, h1⟩ := restore_pos_eq hu hcell ht (by omega)
          have hsec : cell.secret = S := hinv cell hcell
          obtain ⟨s1, hrun, h1u, h1inv, h1out⟩ :=
            ih { s with
                   data := fun v =>
                     if v = u then some ⟨cell.secret, cell.tries_left - 1⟩
                     else s.data v,
                   last_transition_outcome := out }
              hu
              (by
                intro c hc
                simp at hc
                simp [← hc, hsec])
              (by
                intro x hx
                rcases hout2 with h | h
                · simp [h] at hx
                · simp [h] at hx
                  simp [← hx, hsec])
              hrs'
          exact ⟨s1, by simp [InMemoryStorage.run, h1, hrun], h1u, h1inv, h1out⟩

/-! ## Single-step lemmas about the aligned live model -/

/-- With no uid selected, an oracle restore dies on the uid unwrap. -/
theorem oracle_restore_none_eq {o : InMemoryStorage} {t : Transition}
    (hu : o.uid = none) (ht : t.isRestore = true) : o.apply t = none := by
  cases t with
  | SetUid u2 => simp [Transition.isRestore] at ht
  | Backup S m => simp [Transition.isRestore] at ht
  | Restore => simp [InMemoryStorage.apply, InMemoryStorage.restoreStep, hu]
  | RestoreWithBadPassword =>
      simp [InMemoryStorage.apply, InMemoryStorage.restoreStep, hu]

/-- With no uid selected, an oracle backup dies on the uid unwrap. -/
theorem oracle_backup_none_eq {o : InMemoryStorage} {S : Secret} {m : Nat}
    (hu : o.uid = none) : o.apply (.Backup S m) = none := by
  simp [InMemoryStorage.apply, hu]

/-- With no uid selected, a live restore dies on the uid unwrap. -/
theorem liveFixed_restore_none_eq {l : LiveState} {t : Transition}
    (hu : l.uid = none) (ht : t.isRestore = true) : l.applyFixed t = none := by
  cases t with
  | SetUid u2 => simp [Transition.isRestore] at ht
  | Backup S m => simp [Transition.isRestore] at ht
  | Restore => simp [LiveState.applyFixed, hu]
  | RestoreWithBadPassword => simp [LiveState.applyFixed, hu]

/-- With no uid selected, a live backup dies on the uid unwrap. -/
theorem liveFixed_backup_none_eq {l : LiveState} {S : Secret} {m : Nat}
    (hu : l.uid = none) : l.applyFixed (.Backup S m) = none := by
  simp [LiveState.applyFixed, hu]

/-- Live backup with the uid set overwrites the record at the current uid. -/
theorem liveFixed_backup_eq {l : LiveState} {u : Uid} (S : Secret) (m : Nat)
    (hu : l.uid = some u) :
    l.applyFixed (.Backup S m) =
      some { l with
               records := fun v => if v = u then some ⟨S, m⟩ else l.records v,
               lastOutcome := .Nothing } := by
  simp [LiveState.applyFixed, hu]

/-- A live restore attempt on an absent record reports DataMissing and
leaves the record map unchanged. -/
theorem liveFixed_restore_absent_eq {l : LiveState} {u : Uid} {t : Transition}
    (hu : l.uid = some u) (hd : l.records u = none) (ht : t.isRestore = true) :
    l.applyFixed t = some { l with lastOutcome := .DataMissing } := by
  cases t with
  | SetUid u2 => simp [Transition.isRestore] at ht
  | Backup S m => simp [Transition.isRestore] at ht
  | Restore => simp [LiveState.applyFixed, hu, hd]
  | RestoreWithBadPassword => simp [LiveState.applyFixed, hu, hd]

/-- A live restore attempt that finds tries_left = 0 deletes the record
and reports DataMissing, whatever the password. -/
theorem liveFixed_restore_zero_eq {l : LiveState} {u : Uid} {cell : Svr3Cell}
    {t : Transition} (hu : l.uid = some u) (hd : l.records u = some cell)
    (ht : t.isRestore = true) (h0 : cell.tries_left = 0) :
    l.applyFixed t =
      some { l with
               records := fun v => if v = u then none else l.records v,
               lastOutcome := .DataMissing } := by
  cases t with
  | SetUid u2 => simp [Transition.isRestore] at ht
  | Backup S m => simp [Transition.isRestore] at ht
  | Restore => simp [LiveState.applyFixed, hu, hd, h0]
  | RestoreWithBadPassword => simp [LiveState.applyFixed, hu, hd, h0]

/-- A live wrong-password attempt that finds tries_left positive
decrements the counter and reports RestoreFailed. -/
theorem liveFixed_restore_pos_bad_eq {l : LiveState} {u : Uid}
    {cell : Svr3Cell} (hu : l.uid = some u) (hd : l.records u = some cell)
    (h0 : cell.tries_left ≠ 0) :
    l.applyFixed .RestoreWithBadPassword =
      some { l with
               records := fun v =>
                 if v = u then some ⟨cell.secret, cell.tries_left - 1⟩
                 else l.records v,
               lastOutcome := .RestoreFailed } := by
  simp [LiveState.applyFixed, hu, hd, h0]

/-- A live correct-password attempt that finds tries_left positive
decrements the counter and succeeds with the stored secret. -/
theorem liveFixed_restore_pos_good_eq {l : LiveState} {u : Uid}
    {cell : Svr3Cell} (hu : l.uid = some u) (hd : l.records u = some cell)
    (h0 : cell.tries_left ≠ 0) :
    l.applyFixed .Restore =
      some { l with
               records := fun v =>
                 if v = u then some ⟨cell.secret, cell.tries_left - 1⟩
                 else l.records v,
               lastOutcome := .Success cell.secret } := by
  simp [LiveState.applyFixed, hu, hd, h0]

/-! ## Simulation between the oracle and the tie-break-aligned live model -/

/-- One transition preserves the simulation relation between the oracle
and the aligned live model (or both runs die together on an unset uid). -/
theorem applyFixed_rel {o : InMemoryStorage} {l : LiveState}
    (h : stateRel o l) (t : Transition) :
    optionRel (o.apply t) (l.applyFixed t) := by
  obtain ⟨huid, hdata, _hout⟩ := h
  cases t with
  | SetUid u =>
      exact ⟨rfl, hdata, rfl⟩
  | Backup S m =>
      rcases hu : o.uid with _ | u
      · rw [oracle_backup_none_eq hu, liveFixed_backup_none_eq (huid ▸ hu)]
        trivial
      · rw [backup_eq S m hu, liveFixed_backup_eq S m (huid ▸ hu)]
        refine ⟨huid, fun v => ?_, rfl⟩
        by_cases hv : v = u <;> simp [hv, hdata]
  | Restore =>
      rcases hu : o.uid with _ | u
      · rw [oracle_restore_none_eq hu (by rfl),
          liveFixed_restore_none_eq (huid ▸ hu) (by rfl)]
        trivial
      · have hlu : l.uid = some u := huid ▸ hu
        rcases hcell : o.data u with _ | cell
        · rw [restore_absent_eq hu hcell (by rfl),
            liveFixed_restore_absent_eq hlu ((hdata u).symm.trans hcell) (by rfl)]
          exact ⟨huid, hdata, rfl⟩
        · have hlc : l.records u = some cell := (hdata u).symm.trans hcell
          rcases Nat.eq_zero_or_pos cell.tries_left with h0 | h0
          · rw [restore_zero_eq hu hcell (by rfl) h0,
              liveFixed_restore_zero_eq hlu hlc (by rfl) h0]
            refine ⟨huid, fun v => ?_, rfl⟩
            by_cases hv : v = u <;> simp [hv, hdata]
          · have h0' : cell.tries_left ≠ 0 := by omega
            rw [restore_pos_good_eq hu hcell h0',
              liveFixed_restore_pos_good_eq hlu hlc h0']
            refine ⟨huid, fun v => ?_, by simp [outcomeMatches]⟩
            by_cases hv : v = u <;> simp [hv, hdata]
  | RestoreWithBadPassword =>
      rcases hu : o.uid with _ | u
      · rw [oracle_restore_none_eq hu (by rfl),
          liveFixed_restore_none_eq (huid ▸ hu) (by rfl)]
        trivial
      · have hlu : l.uid = some u := huid ▸ hu
        rcases hcell : o.data u with _ | cell
        · rw [restore_absent_eq hu hcell (by rfl),
            liveFixed_restore_absent_eq hlu ((hdata u).symm.trans hcell) (by rfl)]
          exact ⟨huid, hdata, rfl⟩
        · have hlc : l.records u = some cell := (hdata u).symm.trans hcell
          rcases Nat.eq_zero_or_pos cell.tries_left with h0 | h0
          · rw [restore_zero_eq hu hcell (by rfl) h0,
              liveFixed_restore_zero_eq hlu hlc (by rfl) h0]
            refine ⟨huid, fun v => ?_, rfl⟩
            by_cases hv : v = u <;> simp [hv, hdata]
          · have h0' : cell.tries_left ≠ 0 := by omega
            rw [restore_pos_bad_eq hu hcell h0',
              liveFixed_restore_pos_bad_eq hlu hlc h0']
            refine ⟨huid, fun v => ?_, rfl⟩
            by_cases hv : v = u <;> simp [hv, hdata]

/-- The simulation relation is preserved by whole transition sequences. -/
theorem run_rel (ts : List Transition) :
    ∀ (o : InMemoryStorage) (l : LiveState), stateRel o l →
      optionRel (o.run ts) (l.runFixed ts) := by
  induction ts with
  | nil => intro o l h; exact h
  | cons t ts ih =>
      intro o l h
      have hstep := applyFixed_rel h t
      rcases ho : o.apply t with _ | o2 <;>
        rcases hl : l.applyFixed t with _ | l2
      · simp [InMemoryStorage.run, LiveState.runFixed, ho, hl, optionRel]
      · rw [ho, hl] at hstep; exact absurd hstep (by simp [optionRel])
      · rw [ho, hl] at hstep; exact absurd hstep (by simp [optionRel])
      · rw [ho, hl] at hstep
        have : stateRel o2 l2 := hstep
        simpa [InMemoryStorage.run, LiveState.runFixed, ho, hl] using
          ih o2 l2 this

/-! ## Existential forms of the step lemmas -/

/-- Backup overwrites the record at the current uid and nothing else. -/
theorem backup_ex {s : InMemoryStorage} {u : Uid} (S : Secret) (m : Nat)
    (hu : s.uid = some u) :
    ∃ s0, s.apply (.Backup S m) = some s0 ∧ s0.uid = some u ∧
      s0.data u = some ⟨S, m⟩ ∧ (∀ v, v ≠ u → s0.data v = s.data v) ∧
      s0.last_transition_outcome = .Nothing :=
  ⟨_, backup_eq S m hu, hu, by simp, fun v hv => by simp [hv], rfl⟩

/-- Existential form of restore_zero_eq. -/
theorem restore_zero_ex {s : InMemoryStorage} {u : Uid} {cell : Svr3Cell}
    {t : Transition} (hu : s.uid = some u) (hd : s.data u = some cell)
    (ht : t.isRestore = true) (h0 : cell.tries_left = 0) :
    ∃ s', s.apply t = some s' ∧ s'.uid = some u ∧ s'.data u = none ∧
      (∀ v, v ≠ u → s'.data v = s.data v) ∧
      s'.last_transition_outcome = .MaxTriesReached :=
  ⟨_, restore_zero_eq hu hd ht h0, hu, by simp, fun v hv => by simp [hv], rfl⟩

/-- Existential form of restore_pos_eq. -/
theorem restore_pos_ex {s : InMemoryStorage} {u : Uid} {cell : Svr3Cell}
    {t : Transition} (hu : s.uid = some u) (hd : s.data u = some cell)
    (ht : t.isRestore = true) (h0 : cell.tries_left ≠ 0) :
    ∃ s', s.apply t = some s' ∧ s'.uid = some u ∧
      s'.data u = some ⟨cell.secret, cell.tries_left - 1⟩ ∧
      (∀ v, v ≠ u → s'.data v = s.data v) ∧
      (s'.last_transition_outcome = .BadCommitment ∨
       s'.last_transition_outcome = .Restored cell.secret) := by
  obtain ⟨out, hout, e⟩ := restore_pos_eq hu hd ht h0
  exact ⟨_, e, hu, by simp, fun v hv => by simp [hv], hout⟩

/-- Existential form of restore_pos_bad_eq. -/
theorem restore_pos_bad_ex {s : InMemoryStorage} {u : Uid} {cell : Svr3Cell}
    (hu : s.uid = some u) (hd : s.data u = some cell)
    (h0 : cell.tries_left ≠ 0) :
    ∃ s', s.apply .RestoreWithBadPassword = some s' ∧ s'.uid = some u ∧
      s'.data u = some ⟨cell.secret, cell.tries_left - 1⟩ ∧
      s'.last_transition_outcome = .BadCommitment :=
  ⟨_, restore_pos_bad_eq hu hd h0, hu, by simp, rfl⟩

/-! ## Claim C1 -/

/-- Claim C1, counterexample: after backup(maxTries = 1), a single restore
attempt with a wrong password yields BadCommitment (the Restore-failed
class), not the claimed MaxTriesReached/NotFound (Data-missing) class:
the oracle reports exhaustion only on the attempt that finds triesLeft
already 0, not on the attempt whose decrement brings it to 0. -/
theorem C1_counterexample :
    (InMemoryStorage.default.run
      [Transition.SetUid (mkUid 0), Transition.Backup (mkSecret 1) 1,
       Transition.RestoreWithBadPassword]).map
      InMemoryStorage.last_transition_outcome
      = some TransitionOutcome.BadCommitment ∧
    TransitionOutcome.BadCommitment ≠ TransitionOutcome.MaxTriesReached ∧
    TransitionOutcome.BadCommitment ≠ TransitionOutcome.NotFound := by
  exact ⟨by decide, by decide, by decide⟩

/-- Claim C1 (amended): for every user id, after a backup with maxTries = 1,
a single restore attempt with a wrong password yields BadCommitment (the
Restore-failed class) and leaves the record present with triesLeft = 0;
the Data-missing exhaustion outcome (MaxTriesReached) fires on the next
restore attempt — the one that finds triesLeft = 0 — which also deletes
the record, regardless of password correctness on that attempt. -/
theorem C1_backup_one_bad_password (s : InMemoryStorage) (u : Uid)
    (S : Secret) (hu : s.uid = some u) :
    ∃ s1 s2, s.apply (.Backup S 1) = some s1 ∧
      s1.apply .RestoreWithBadPassword = some s2 ∧
      s2.last_transition_outcome = .BadCommitment ∧
      s2.data u = some ⟨S, 0⟩ ∧
      ∀ t, t.isRestore = true → ∃ s3, s2.apply t = some s3 ∧
        s3.last_transition_outcome = .MaxTriesReached ∧ s3.data u = none := by
  obtain ⟨s1, e1, h1u, h1d, _, _⟩ := backup_ex S 1 hu
  obtain ⟨s2, e2, h2u, h2d, h2l⟩ := restore_pos_bad_ex h1u h1d (by simp)
  refine ⟨s1, s2, e1, e2, h2l, h2d, fun t ht => ?_⟩
  obtain ⟨s3, e3, _, h3d, _, h3l⟩ := restore_zero_ex h2u h2d ht rfl
  exact ⟨s3, e3, h3l, h3d⟩

/-- Witness for C1_backup_one_bad_password at a concrete state. -/
theorem C1_witness :
    (initWithUid (mkUid 0)).uid = some (mkUid 0) ∧
    ∃ s1 s2, (initWithUid (mkUid 0)).apply (.Backup (mkSecret 1) 1) = some s1 ∧
      s1.apply .RestoreWithBadPassword = some s2 ∧
      s2.last_transition_outcome = .BadCommitment ∧
      s2.data (mkUid 0) = some ⟨mkSecret 1, 0⟩ ∧
      ∀ t, t.isRestore = true → ∃ s3, s2.apply t = some s3 ∧
        s3.last_transition_outcome = .MaxTriesReached ∧
        s3.data (mkUid 0) = none :=
  ⟨rfl, C1_backup_one_bad_password (initWithUid (mkUid 0)) (mkUid 0)
    (mkSecret 1) rfl⟩

/-! ## Claim C2 -/

/-- Claim C2, counterexample: a wrong-password restore attempt on a record
with triesRemaining = 1 brings the counter to 0 as a result of that
attempt, yet the record is not deleted in that step (it is still present,
holding triesRemaining = 0); deletion only happens on the next attempt. -/
theorem C2_counterexample :
    ((InMemoryStorage.default.run
      [Transition.SetUid (mkUid 0), Transition.Backup (mkSecret 1) 1]).map
      (fun s => s.data (mkUid 0)))
      = some (some ⟨mkSecret 1, 1⟩) ∧
    ((InMemoryStorage.default.run
      [Transition.SetUid (mkUid 0), Transition.Backup (mkSecret 1) 1,
       Transition.RestoreWithBadPassword]).map
      (fun s => s.data (mkUid 0)))
      = some (some ⟨mkSecret 1, 0⟩) := by
  exact ⟨by decide, by decide⟩

/-- Claim C2 (amended): on every restore attempt against a present record,
the counter is decremented by exactly one whether or not the
password-commitment matches, so long as it was positive; the record is
deleted on the restore attempt that finds triesRemaining = 0 — the attempt
after the one that decremented it to 0, not the same step; and
triesRemaining never goes below 0 (the decrement is saturating). -/
theorem C2_decrement_and_delete (s : InMemoryStorage) (u : Uid)
    (t : Transition) (hu : s.uid = some u) (ht : t.isRestore = true) :
    (∀ cell, s.data u = some cell → cell.tries_left = 0 →
      ∃ s', s.apply t = some s' ∧ s'.data u = none ∧
        s'.last_transition_outcome = .MaxTriesReached) ∧
    (∀ cell, s.data u = some cell → cell.tries_left ≠ 0 →
      ∃ s', s.apply t = some s' ∧
        s'.data u = some ⟨cell.secret, cell.tries_left - 1⟩ ∧
        cell.tries_left - 1 + 1 = cell.tries_left) := by
  constructor
  · intro cell hc h0
    obtain ⟨s', e, _, hd, _, hl⟩ := restore_zero_ex hu hc ht h0
    exact ⟨s', e, hd, hl⟩
  · intro cell hc h0
    obtain ⟨s', e, _, hd, _, _⟩ := restore_pos_ex hu hc ht h0
    exact ⟨s', e, hd, by omega⟩

/-- Witness for C2_decrement_and_delete at a concrete state. -/
theorem C2_witness :
    ∃ s', (withCell (mkUid 0) ⟨mkSecret 1, 1⟩).apply .Restore = some s' ∧
      s'.data (mkUid 0) = some ⟨mkSecret 1, 0⟩ ∧ 0 + 1 = 1 := by
  obtain ⟨-, h2⟩ := C2_decrement_and_delete
    (withCell (mkUid 0) ⟨mkSecret 1, 1⟩) (mkUid 0) .Restore rfl rfl
  exact h2 ⟨mkSecret 1, 1⟩ (by decide) (by decide)

/-! ## Claim C7 -/

/-- Claim C7: for every user id with no record present, a restore attempt
yields the NotFound (Data-missing) outcome and leaves the storage state
unchanged: the uid and the whole record map are exactly as before, so
Absent transitions to Absent under any restore. -/
theorem C7_restore_absent_noop (s : InMemoryStorage) (u : Uid)
    (t : Transition) (hu : s.uid = some u) (hd : s.data u = none)
    (ht : t.isRestore = true) :
    ∃ s', s.apply t = some s' ∧ s'.uid = s.uid ∧ s'.data = s.data ∧
      s'.last_transition_outcome = .NotFound :=
  ⟨_, restore_absent_eq hu hd ht, rfl, rfl, rfl⟩

/-- Witness for C7_restore_absent_noop at a concrete state. -/
theorem C7_witness :
    (initWithUid (mkUid 3)).data (mkUid 3) = none ∧
    ∃ s', (initWithUid (mkUid 3)).apply .RestoreWithBadPassword = some s' ∧
      s'.uid = (initWithUid (mkUid 3)).uid ∧
      s'.data = (initWithUid (mkUid 3)).data ∧
      s'.last_transition_outcome = .NotFound :=
  ⟨rfl, C7_restore_absent_noop (initWithUid (mkUid 3)) (mkUid 3)
    .RestoreWithBadPassword rfl rfl rfl⟩

/-! ## Claim C8 -/

/-- Claim C8: for every prior state of a user id, a backup with secret S
and maxTries m puts the record into exactly Present(S, m), overwriting
prior state; consequently any later sequence of restore attempts (with no
intervening backup) keeps the stored secret equal to S and any Restored
outcome returns S, never a secret stored by an earlier backup. -/
theorem C8_backup_overwrites (s : InMemoryStorage) (u : Uid) (S : Secret)
    (m : Nat) (hu : s.uid = some u) :
    ∃ s0, s.apply (.Backup S m) = some s0 ∧ s0.data u = some ⟨S, m⟩ ∧
      ∀ rs, (∀ t ∈ rs, t.isRestore = true) →
        ∃ s1, s0.run rs = some s1 ∧
          (∀ c, s1.data u = some c → c.secret = S) ∧
          (∀ x, s1.last_transition_outcome = .Restored x → x = S) := by
  obtain ⟨s0, e0, h0u, h0d, _, h0l⟩ := backup_ex S m hu
  refine ⟨s0, e0, h0d, fun rs hrs => ?_⟩
  obtain ⟨s1, e1, _, hinv, hout⟩ :=
    run_restores_secret rs s0 h0u
      (by
        intro c hc
        rw [h0d] at hc
        cases Option.some.inj hc
        rfl)
      (by
        intro x hx
        rw [h0l] at hx
        cases hx)
      hrs
  exact ⟨s1, e1, hinv, hout⟩

/-- Witness for C8_backup_overwrites at a concrete state holding an older
secret, overwritten by the new backup. -/
theorem C8_witness :
    (withCell (mkUid 2) ⟨mkSecret 9, 5⟩).uid = some (mkUid 2) ∧
    ∃ s0, (withCell (mkUid 2) ⟨mkSecret 9, 5⟩).apply
        (.Backup (mkSecret 7) 2) = some s0 ∧
      s0.data (mkUid 2) = some ⟨mkSecret 7, 2⟩ ∧
      ∀ rs, (∀ t ∈ rs, t.isRestore = true) →
        ∃ s1, s0.run rs = some s1 ∧
          (∀ c, s1.data (mkUid 2) = some c → c.secret = mkSecret 7) ∧
          (∀ x, s1.last_transition_outcome = .Restored x → x = mkSecret 7) :=
  ⟨rfl, C8_backup_overwrites (withCell (mkUid 2) ⟨mkSecret 9, 5⟩) (mkUid 2)
    (mkSecret 7) 2 rfl⟩

/-! ## Claim C3 -/

/-- Claim C3, counterexample: with the live model following the spec text
verbatim (Present(1) under any password goes to Absent with data-missing),
the simulation fails on the sequence SetUid; Backup(S, 1); Restore: the
oracle reports Restored(S) while the spec-worded live model reports
DataMissing, and those outcomes do not correspond. The tie-break of the
live model has to be aligned with the oracle (exhaustion on the attempt
that finds triesRemaining = 0) for the simulation to hold. -/
theorem C3_counterexample :
    (InMemoryStorage.default.run
      [Transition.SetUid (mkUid 0), Transition.Backup (mkSecret 1) 1,
       Transition.Restore]).map InMemoryStorage.last_transition_outcome
      = some (TransitionOutcome.Restored (mkSecret 1)) ∧
    (LiveState.default.runSpec
      [Transition.SetUid (mkUid 0), Transition.Backup (mkSecret 1) 1,
       Transition.Restore]).map LiveState.lastOutcome
      = some LiveOutcome.DataMissing ∧
    outcomeMatches (.Restored (mkSecret 1)) .DataMissing = false := by
  exact ⟨by decide, by decide, by decide⟩

/-- Claim C3 (amended): for every sequence of
SetUid/Backup/Restore/RestoreWithBadPassword transitions, the live
model — with its restore tie-break aligned to the oracle's (exhaustion
is reported, and the record deleted, on the attempt that finds
triesRemaining = 0) — is in simulation with the Conformance Oracle:
either both runs die on an unset uid, or the states stay related, with
oracle NotFound and MaxTriesReached both corresponding to the live
DataMissing, oracle BadCommitment to the live RestoreFailed, and oracle
Restored(secret) to a live success carrying the identical secret bytes. -/
theorem C3_simulation (ts : List Transition) :
    optionRel (InMemoryStorage.default.run ts)
      (LiveState.default.runFixed ts) :=
  run_rel ts InMemoryStorage.default LiveState.default
    ⟨rfl, fun _ => rfl, rfl⟩

/-- Witness for C3_simulation at a concrete transition sequence. -/
theorem C3_witness :
    optionRel (InMemoryStorage.default.run
      [Transition.SetUid (mkUid 1), Transition.Backup (mkSecret 4) 2,
       Transition.RestoreWithBadPassword, Transition.Restore,
       Transition.Restore])
      (LiveState.default.runFixed
      [Transition.SetUid (mkUid 1), Transition.Backup (mkSecret 4) 2,
       Transition.RestoreWithBadPassword, Transition.Restore,
       Transition.Restore]) :=
  C3_simulation
    [Transition.SetUid (mkUid 1), Transition.Backup (mkSecret 4) 2,
     Transition.RestoreWithBadPassword, Transition.Restore,
     Transition.Restore]

/-! ## Claim C4 -/

/-- Claim C4, counterexample: after backup(maxTries = 1) and exactly one
(correct-password) restore attempt, tries_left has reached 0 but the
record is not gone — it is still present holding tries_left = 0 — so the
claim that the record is gone after at most maxTries attempts fails. -/
theorem C4_counterexample :
    ((InMemoryStorage.default.run
      [Transition.SetUid (mkUid 4), Transition.Backup (mkSecret 2) 1,
       Transition.Restore]).map (fun s => s.data (mkUid 4)))
      = some (some ⟨mkSecret 2, 0⟩) := by
  decide

/-- Claim C4 (amended): after a backup with maxTries = m followed by
restore attempts only, the tries counter decreases by exactly one per
attempt (hence is non-increasing): after k at most m attempts the record
holds (S, m - k), so after exactly m attempts it holds tries 0 but is
still present; the record is gone only after attempt m + 1, which reports
MaxTriesReached; later attempts report NotFound; and every attempt past
the m-th reports a Data-missing-class outcome (MaxTriesReached or
NotFound), counting both correct- and wrong-password attempts. -/
theorem C4_monotone_exhaustion (s : InMemoryStorage) (u : Uid) (S : Secret)
    (m : Nat) (rs : List Transition) (hu : s.uid = some u)
    (hrs : ∀ t ∈ rs, t.isRestore = true) :
    ∃ s0, s.apply (.Backup S m) = some s0 ∧
      ∃ s1, s0.run rs = some s1 ∧
        (rs.length ≤ m → s1.data u = some ⟨S, m - rs.length⟩) ∧
        (rs.length = m + 1 → s1.data u = none ∧
          s1.last_transition_outcome = .MaxTriesReached) ∧
        (m + 2 ≤ rs.length → s1.data u = none ∧
          s1.last_transition_outcome = .NotFound) ∧
        (m + 1 ≤ rs.length →
          s1.last_transition_outcome = .MaxTriesReached ∨
          s1.last_transition_outcome = .NotFound) := by
  obtain ⟨s0, e0, h0u, h0d, _, _⟩ := backup_ex S m hu
  obtain ⟨s1, e1, _, hle, heq, hge⟩ := run_restores_present rs s0 m h0u h0d hrs
  refine ⟨s0, e0, s1, e1, hle, heq, hge, fun h => ?_⟩
  rcases Nat.lt_or_ge rs.length (m + 2) with h2 | h2
  · exact Or.inl (heq (by omega)).2
  · exact Or.inr (hge h2).2

/-- Witness for C4_monotone_exhaustion: maxTries = 1, then two attempts;
the second attempt deletes the record and reports MaxTriesReached. -/
theorem C4_witness :
    (initWithUid (mkUid 5)).uid = some (mkUid 5) ∧
    (∀ t ∈ ([Transition.Restore, Transition.RestoreWithBadPassword] :
        List Transition), t.isRestore = true) ∧
    ∃ s0, (initWithUid (mkUid 5)).apply (.Backup (mkSecret 3) 1) = some s0 ∧
      ∃ s1, s0.run [Transition.Restore, Transition.RestoreWithBadPassword]
          = some s1 ∧
        (([Transition.Restore, Transition.RestoreWithBadPassword] :
            List Transition).length ≤ 1 →
          s1.data (mkUid 5) = some ⟨mkSecret 3,
            1 - ([Transition.Restore, Transition.RestoreWithBadPassword] :
              List Transition).length⟩) ∧
        (([Transition.Restore, Transition.RestoreWithBadPassword] :
            List Transition).length = 1 + 1 →
          s1.data (mkUid 5) = none ∧
          s1.last_transition_outcome = .MaxTriesReached) ∧
        (1 + 2 ≤ ([Transition.Restore, Transition.RestoreWithBadPassword] :
            List Transition).length →
          s1.data (mkUid 5) = none ∧
          s1.last_transition_outcome = .NotFound) ∧
        (1 + 1 ≤ ([Transition.Restore, Transition.RestoreWithBadPassword] :
            List Transition).length →
          s1.last_transition_outcome = .MaxTriesReached ∨
          s1.last_transition_outcome = .NotFound) :=
  ⟨rfl, by decide,
    C4_monotone_exhaustion (initWithUid (mkUid 5)) (mkUid 5) (mkSecret 3) 1
      [Transition.Restore, Transition.RestoreWithBadPassword] rfl
      (by decide)⟩

/-! ## Claim C5 -/

/-- Claim C5: SvrConnection::connect returns Ok exactly when the
connection-manager attempt yields ServiceState::Active and the attested
handshake on that websocket succeeds; the other three attempt outcomes
map to distinct network errors — Cooldown to Net(NoServiceConnection),
Error(e) to Net(e), TimedOut to Net(Timeout) — so a connection-level
failure is never reported as a protocol or attestation error. -/
theorem C5_connect_classification (Flavor W SE A : Type)
    (ac : W → Except AttestedConnectionError A) :
    (∀ attempt : ServiceState W SE,
      (∃ conn, @SvrConnection.connect Flavor W SE A attempt ac =
        Except.ok conn) ↔
      ∃ ws extra, attempt = .Active ws extra ∧ ∃ c, ac ws = Except.ok c) ∧
    (∀ r, @SvrConnection.connect Flavor W SE A (.Cooldown r) ac =
      Except.error (.Net .NoServiceConnection)) ∧
    (∀ e, @SvrConnection.connect Flavor W SE A (.Error e) ac =
      Except.error (.Net e)) ∧
    @SvrConnection.connect Flavor W SE A .TimedOut ac =
      Except.error (.Net .Timeout) := by
  refine ⟨fun attempt => ⟨?_, ?_⟩, fun r => rfl, fun e => rfl, rfl⟩
  · rintro ⟨conn, hc⟩
    cases attempt with
    | Active ws extra =>
        refine ⟨ws, extra, rfl, ?_⟩
        rcases hac : ac ws with e | c
        · simp [SvrConnection.connect, hac] at hc
        · exact ⟨c, rfl⟩
    | Cooldown r => simp [SvrConnection.connect] at hc
    | Error e => simp [SvrConnection.connect] at hc
    | TimedOut => simp [SvrConnection.connect] at hc
  · rintro ⟨ws, extra, rfl, c, hac⟩
    exact ⟨⟨c⟩, by simp [SvrConnection.connect, hac]⟩

/-- Witness for C5_connect_classification: a cooldown attempt surfaces
exactly Net(NoServiceConnection). -/
theorem C5_witness :
    @SvrConnection.connect Unit Nat Unit Unit (.Cooldown 5)
      (fun _ => Except.ok ()) =
      Except.error (.Net .NoServiceConnection) :=
  (C5_connect_classification Unit Nat Unit Unit (fun _ => Except.ok ())).2.1 5

/-! ## Claim C6 -/

/-- Claim C6: every attested-connection failure surfaced by
SvrConnection::connect is one of the taxonomy kinds Net, Protocol or
AttestationError; the Sgx variant (attestation verification failure) maps
to the distinct AttestationError kind, never to a network error, never to
Protocol, and never to a success value: a failing handshake makes connect
return the converted error. -/
theorem C6_error_taxonomy :
    (∀ a, svrErrorFrom (.Sgx a) = .AttestationError a) ∧
    (∀ e, (∃ n, svrErrorFrom e = .Net n) ∨ svrErrorFrom e = .Protocol ∨
      ∃ a, svrErrorFrom e = .AttestationError a) ∧
    (∀ a n, svrErrorFrom (.Sgx a) ≠ .Net n) ∧
    (∀ a, svrErrorFrom (.Sgx a) ≠ .Protocol) ∧
    (∀ (Flavor W SE A : Type) (ac : W → Except AttestedConnectionError A)
      (ws : W) (extra : SE) (e : AttestedConnectionError),
      ac ws = Except.error e →
      @SvrConnection.connect Flavor W SE A (.Active ws extra) ac =
        Except.error (svrErrorFrom e)) := by
  refine ⟨fun a => rfl, fun e => ?_, fun a n => by simp [svrErrorFrom],
    fun a => by simp [svrErrorFrom],
    fun F W SE A ac ws extra e hac => by simp [SvrConnection.connect, hac]⟩
  cases e with
  | ClientConnection c => exact Or.inr (Or.inl rfl)
  | Net n => exact Or.inl ⟨n, rfl⟩
  | Protocol => exact Or.inr (Or.inl rfl)
  | Sgx a => exact Or.inr (Or.inr ⟨a, rfl⟩)

/-- Witness for C6_error_taxonomy: a handshake failing with an Sgx
attestation error surfaces as AttestationError. -/
theorem C6_witness :
    @SvrConnection.connect Unit Nat Unit Unit (.Active 0 ())
      (fun _ => Except.error (.Sgx ⟨7⟩)) =
      Except.error (.AttestationError ⟨7⟩) :=
  C6_error_taxonomy.2.2.2.2 Unit Nat Unit Unit
    (fun _ => Except.error (.Sgx ⟨7⟩)) 0 () (.Sgx ⟨7⟩) rfl

/-! ## Claim C10 -/

/-- Claim C10: the enclave-identity-to-URL-path mapping is total and
deterministic for Sgx and Cdsi — any byte string is hex-encoded into
"/v1/.." and "/v1/../discovery" respectively — but partial for Nitro:
Nitro's url_path dies (the from_utf8 expect) exactly when the identity
bytes are not valid UTF-8, and otherwise produces "/v1/" followed by the
decoded string. -/
theorem C10_url_path (b : List Byte) :
    Sgx.url_path b = some ("/v1/" ++ hexEncode b) ∧
    Cdsi.url_path b = some ("/v1/" ++ hexEncode b ++ "/discovery") ∧
    ((Nitro.url_path b).isSome ↔ (utf8Decode b).isSome) ∧
    (∀ cs, utf8Decode b = some cs →
      Nitro.url_path b = some ("/v1/" ++ String.mk cs)) ∧
    (utf8Decode b = none → Nitro.url_path b = none) := by
  refine ⟨rfl, rfl, ?_, ?_, ?_⟩
  · simp [Nitro.url_path]
  · intro cs h
    simp [Nitro.url_path, h]
  · intro h
    simp [Nitro.url_path, h]

/-- Witness for C10_url_path: the bytes of "abc" decode and map to
"/v1/abc"; the single byte 0xFF is not valid UTF-8 and Nitro's mapping
dies on it. -/
theorem C10_witness :
    utf8Decode [(97 : Byte), 98, 99] = some ['a', 'b', 'c'] ∧
    Nitro.url_path [(97 : Byte), 98, 99] = some "/v1/abc" ∧
    utf8Decode [(255 : Byte)] = none ∧
    Nitro.url_path [(255 : Byte)] = none := by
  refine ⟨by decide, ?_, by decide, ?_⟩
  · exact (C10_url_path [97, 98, 99]).2.2.2.1 ['a', 'b', 'c'] (by decide)
  · exact (C10_url_path [255]).2.2.2.2 (by decide)
